import Mathlib

/-!
Shallow embedding of the Ambulance dispatch system backend (Express + Mongoose
route handlers) and proofs about its claimed behaviour.

The data store is modelled as in-memory lists of records; each route handler
becomes a pure function from the store (and the decoded bearer-token claims,
where the handler uses them) to an HTTP-style response together with the
updated store.  Mongo document ids are modelled as `Nat`, JS numbers occurring
in coordinates as `ℚ`, absent/`undefined` string fields as `Option String`
(with the JS truthiness convention that the empty string is falsy).
-/

namespace AmbulanceDispatch

/-- HTTP-style response: `ok code` for a success response with the given
status code, `err code message` for an error response carrying the JSON
`message` field the handler sends. -/
inductive HResp where
  | ok (code : Nat)
  | err (code : Nat) (message : String)
deriving DecidableEq, Repr

/-- User schema from src/models/User.js: name, role (enum-validated on save), unique email,
stored password hash, required primary phone, optional secondary phone. -/
structure User where
  id : Nat
  name : String
  role : String
  email : String
  password : String
  phone_number_1 : String
  phone_number_2 : Option String
deriving DecidableEq, Repr

/-- The closed role enum of `userSchema` in `src/models/User.js`. -/
def validRoles : List String := ["admin", "dispatcher", "user", "driver", "medic"]

/-- Ambulance schema from src/models/Ambulance.js: unique license plate, status enum, hospital
name, and a GeoJSON point whose coordinates are stored `[longitude, latitude]`. -/
structure Ambulance where
  id : Nat
  license_plate : String
  status : String
  hospital_name : String
  coordinates : ℚ × ℚ
deriving DecidableEq, Repr

/-- Incident schema, the third document inside src/config/db.js: optional
reporting user, required phone snapshot, stored `[lng, lat]` coordinates,
required incident type, priority as a Number with min 1 and max 5, status
with enum [pending, dispatched, resolved] defaulting to "pending", optional
ambulance reference.  The stored status is kept as a plain String because
the PATCH update path writes it without running the validators, so values
outside the enum are storable; the enum and the priority bounds are enforced
by `incidentValid` on the document-save paths below. -/
structure Incident where
  id : Nat
  user : Nat
  phone : String
  coordinates : ℚ × ℚ
  incident_type : String
  priority : ℚ
  status : String
  ambulance : Option Nat
deriving DecidableEq, Repr

/-- The status enum of the incident schema in src/config/db.js.  Note that
"request-denied" is not in it. -/
def validIncidentStatuses : List String := ["pending", "dispatched", "resolved"]

/-- Document validation run by Mongoose `save()` on the incident schema:
required non-empty phone and incident type, status in the enum, priority in
[1, 5].  (`required: true` rejects the empty string for String paths.) -/
def incidentValid (i : Incident) : Bool :=
  i.phone != "" && i.incident_type != "" && validIncidentStatuses.contains i.status
    && decide (1 ≤ i.priority) && decide (i.priority ≤ 5)

/-- Decoded JWT payload attached as `req.user` by `verifyToken`
(`src/unnamed/part_005`): the signed-in principal id and the role claim
embedded at token-issue time. -/
structure JwtClaim where
  userId : Nat
  role : String
deriving DecidableEq, Repr

/-- JS truthiness of an optional string field: `undefined` and `""` are falsy. -/
def otruthy (o : Option String) : Bool := o.getD "" != ""

/-- One-way password hash (bcrypt is commodity glue; modelled as an injective
tagging function - the proofs never invert it). -/
def bcryptHash (password : String) : String := String.append "bcrypt$" password

/-- Model of bcrypt.compare: comparison succeeds exactly when `hash` is the hash of
`plain`. -/
def bcryptCompare (plain hash : String) : Bool := hash == bcryptHash plain

/-- The coordinate-normalization heuristic shared by ambulance create/update
(`src/routes/ambulanceRoutes.js`) and incident create (`src/unnamed/part_002`):

    let [lat, lng] = coords;
    if (Math.abs(lat) > 90 || Math.abs(lng) > 180) [lng, lat] = [lat, lng];
    if (lat < -90 || lat > 90 || lng < -180 || lng > 180) reject;
    corrected = [lng, lat];

Returns `none` on rejection, otherwise the stored `[lng, lat]` pair. -/
def normalizeCoords (coords : ℚ × ℚ) : Option (ℚ × ℚ) :=
  let p : ℚ × ℚ := if |coords.1| > 90 ∨ |coords.2| > 180 then (coords.2, coords.1) else coords
  if p.1 < -90 ∨ p.1 > 90 ∨ p.2 < -180 ∨ p.2 > 180 then none
  else some (p.2, p.1)

/-- Wording of the spec for the heuristic, kept for refinement comparison (§4.4):
interpret the input as (a, b) = (lat, lng); if |a| > 90 or |b| > 180 swap to
(b, a); then require the final (lat, lng) to satisfy −90 ≤ lat ≤ 90 and
−180 ≤ lng ≤ 180, else reject; store in (longitude, latitude) order. -/
def specNormalize (a b : ℚ) : Option (ℚ × ℚ) :=
  let lat : ℚ := if |a| > 90 ∨ |b| > 180 then b else a
  let lng : ℚ := if |a| > 90 ∨ |b| > 180 then a else b
  if -90 ≤ lat ∧ lat ≤ 90 ∧ -180 ≤ lng ∧ lng ≤ 180 then some (lng, lat) else none

/-- Request body of `POST /api/ambulances` (`src/routes/ambulanceRoutes.js`);
`location = none` models a missing `location`/`location.coordinates`. -/
structure AmbulanceReq where
  license_plate : String
  status : String
  hospital_name : String
  location : Option (ℚ × ℚ)
deriving DecidableEq, Repr

/-- The status enum checked by the ambulance routes. -/
def validStatuses : List String := ["available", "on-duty", "maintenance"]

/-- Handler of POST / in src/routes/ambulanceRoutes.js (admin-gated by
`verifyAdmin`; the middleware is applied before this body runs): required
fields, status enum, coordinate normalization, then save.  The save also
enforces the unique index on `license_plate` declared in the schema (a
duplicate key error surfaces as the catch-all 500). -/
def createAmbulance (ambs : List Ambulance) (freshId : Nat) (r : AmbulanceReq) :
    HResp × List Ambulance :=
  match r.location with
  | none => (.err 400 "Missing required fields", ambs)
  | some coords =>
    if r.license_plate == "" || r.status == "" then (.err 400 "Missing required fields", ambs)
    else if r.status ∉ validStatuses then (.err 400 "Invalid status value", ambs)
    else
      match normalizeCoords coords with
      | none => (.err 400 "Invalid coordinates", ambs)
      | some st =>
        if (ambs.find? (fun a => a.license_plate == r.license_plate)).isSome then
          (.err 500 "Server error", ambs)
        else
          (.ok 201, ambs ++ [{ id := freshId, license_plate := r.license_plate,
                               status := r.status, hospital_name := r.hospital_name,
                               coordinates := st }])

/-- Handler of PUT /:id in src/routes/ambulanceRoutes.js: optional status
enum check, optional coordinate normalization (rejecting before the existence
lookup), then `findByIdAndUpdate` overwriting the supplied fields.  The
route never pre-checks the plate, so an update that sets `license_plate` to
a value held by a different ambulance violates the unique index: the store
raises a duplicate-key error, the catch answers 500, and nothing persists. -/
def updateAmbulance (ambs : List Ambulance) (aid : Nat) (r : AmbulanceReq) :
    HResp × List Ambulance :=
  if r.status != "" ∧ r.status ∉ validStatuses then (.err 400 "Invalid status value", ambs)
  else
    match r.location with
    | some coords =>
      (match normalizeCoords coords with
       | none => (.err 400 "Invalid coordinates", ambs)
       | some st =>
         if (ambs.find? (fun a => a.id == aid)).isSome then
           if r.license_plate != ""
               ∧ (ambs.find? (fun a => a.id != aid && a.license_plate == r.license_plate)).isSome then
             (.err 500 "Server error", ambs)
           else
             (.ok 200, ambs.map (fun a =>
               if a.id == aid then
                 { a with license_plate := if r.license_plate != "" then r.license_plate else a.license_plate,
                          status := if r.status != "" then r.status else a.status,
                          hospital_name := if r.hospital_name != "" then r.hospital_name else a.hospital_name,
                          coordinates := st }
               else a))
         else (.err 404 "Ambulance not found", ambs))
    | none =>
      if (ambs.find? (fun a => a.id == aid)).isSome then
        if r.license_plate != ""
            ∧ (ambs.find? (fun a => a.id != aid && a.license_plate == r.license_plate)).isSome then
          (.err 500 "Server error", ambs)
        else
          (.ok 200, ambs.map (fun a =>
            if a.id == aid then
              { a with license_plate := if r.license_plate != "" then r.license_plate else a.license_plate,
                       status := if r.status != "" then r.status else a.status,
                       hospital_name := if r.hospital_name != "" then r.hospital_name else a.hospital_name }
            else a))
      else (.err 404 "Ambulance not found", ambs)

/-- A priority value as submitted in a JSON body: `missing` for a falsy
value (absent, null, 0, empty string), `num q` for a truthy value that
Mongoose casts to the number `q` (a number, or a numeric string), and
`invalid` for a truthy value the cast rejects (a CastError at save time). -/
inductive PriorityVal where
  | missing
  | num (q : ℚ)
  | invalid
deriving DecidableEq, Repr

/-- Request body of `POST /api/incidents/create` (`src/unnamed/part_002`). -/
structure IncidentReq where
  coordinates : Option (ℚ × ℚ)
  incident_type : String
  priority : PriorityVal
  ambulanceId : Option Nat
deriving DecidableEq, Repr

/-- Mongoose save of a new incident document: runs the schema validators of
src/config/db.js; a failure is thrown and becomes the catch-all 500. -/
def saveIncident (incs : List Incident) (nu : Incident) : HResp × List Incident :=
  if incidentValid nu then (.ok 201, incs ++ [nu])
  else (.err 500 "Server error", incs)

/-- Handler of POST /create in src/unnamed/part_002 (behind verifyToken):
required fields, coordinate normalization, reporter lookup by the userId claim
of the token, optional ambulance lookup, then `newIncident.save()` of a new
incident whose phone is a snapshot of the primary phone of the reporter,
whose stored coordinates are `[lng, lat]`, and whose status takes the schema
default "pending".  The save casts the priority to a Number and validates it
against min 1 / max 5 (and the other schema constraints), so an uncastable
or out-of-range priority answers 500 with nothing persisted. -/
def createIncident (users : List User) (ambs : List Ambulance) (incs : List Incident)
    (claim : JwtClaim) (freshId : Nat) (r : IncidentReq) : HResp × List Incident :=
  match r.coordinates with
  | none => (.err 400 "Missing required fields", incs)
  | some coords =>
    if r.incident_type == "" || r.priority == PriorityVal.missing then
      (.err 400 "Missing required fields", incs)
    else
      match normalizeCoords coords with
      | none => (.err 400 "Invalid coordinates", incs)
      | some st =>
        match users.find? (fun u => u.id == claim.userId) with
        | none => (.err 404 "User not found", incs)
        | some u =>
          match r.ambulanceId with
          | some aid =>
            (match ambs.find? (fun a => a.id == aid) with
             | none => (.err 404 "Ambulance not found", incs)
             | some _ =>
               match r.priority with
               | .num q =>
                 saveIncident incs { id := freshId, user := claim.userId,
                                     phone := u.phone_number_1, coordinates := st,
                                     incident_type := r.incident_type, priority := q,
                                     status := "pending", ambulance := some aid }
               | _ => (.err 500 "Server error", incs))
          | none =>
            match r.priority with
            | .num q =>
              saveIncident incs { id := freshId, user := claim.userId,
                                  phone := u.phone_number_1, coordinates := st,
                                  incident_type := r.incident_type, priority := q,
                                  status := "pending", ambulance := none }
            | _ => (.err 500 "Server error", incs)

/-- The concrete request of the first test vector of the spec: coordinates [45, 200]. -/
def req45200 : AmbulanceReq :=
  { license_plate := "KAA", status := "available", hospital_name := "H",
    location := some (45, 200) }

/-- The concrete request of the second test vector of the spec: coordinates [95, 40]. -/
def req9540 : AmbulanceReq :=
  { license_plate := "KAA", status := "available", hospital_name := "H",
    location := some (95, 40) }

/-- The record stored for the accepted [95, 40] request. -/
def amb9540 : Ambulance :=
  { id := 1, license_plate := "KAA", status := "available", hospital_name := "H",
    coordinates := (95, 40) }

lemma normalizeCoords_eq_spec (a b : ℚ) : normalizeCoords (a, b) = specNormalize a b := by
  simp only [normalizeCoords, specNormalize]
  by_cases hsw : |a| > 90 ∨ |b| > 180
  · simp only [hsw, if_pos]
    by_cases hr : b < -90 ∨ b > 90 ∨ a < -180 ∨ a > 180
    · rw [if_pos hr, if_neg]
      rintro ⟨h1, h2, h3, h4⟩
      rcases hr with h | h | h | h <;> linarith
    · rw [if_neg hr, if_pos]
      push_neg at hr
      exact ⟨hr.1, hr.2.1, hr.2.2.1, hr.2.2.2⟩
  · simp only [hsw, if_neg, if_false]
    by_cases hr : a < -90 ∨ a > 90 ∨ b < -180 ∨ b > 180
    · rw [if_pos hr, if_neg]
      rintro ⟨h1, h2, h3, h4⟩
      rcases hr with h | h | h | h <;> linarith
    · rw [if_neg hr, if_pos]
      push_neg at hr
      exact ⟨hr.1, hr.2.1, hr.2.2.1, hr.2.2.2⟩

lemma validStatuses_ne_empty {s : String} (hs : s ∈ validStatuses) : s ≠ "" := by
  rintro rfl; simp [validStatuses] at hs

/-- C1: Coordinate normalization for ambulance create/update and incident
create: for every input pair (a, b) read as (lat, lng), if |a| > 90 or
|b| > 180 the pair is swapped to (b, a); the operation then rejects with a
400 "Invalid coordinates" validation error unless the final latitude is in
[−90, 90] and the final longitude is in [−180, 180], and on acceptance the
record stores coordinates in (longitude, latitude) order.  Concretely,
input [45, 200] is rejected, and input [95, 40] is accepted and stored as
[95, 40]. -/
theorem claim1_coordinate_normalization :
    (∀ a b : ℚ, normalizeCoords (a, b) = specNormalize a b)
    ∧ (∀ (ambs : List Ambulance) (freshId : Nat) (r : AmbulanceReq) (coords : ℚ × ℚ),
        r.location = some coords → r.license_plate ≠ "" → r.status ∈ validStatuses →
        ambs.find? (fun a => a.license_plate == r.license_plate) = none →
        (normalizeCoords coords = none →
          createAmbulance ambs freshId r = (.err 400 "Invalid coordinates", ambs))
        ∧ (∀ st, normalizeCoords coords = some st →
            (createAmbulance ambs freshId r).1 = .ok 201
            ∧ ∃ rec, (createAmbulance ambs freshId r).2 = ambs ++ [rec]
                ∧ rec.coordinates = st))
    ∧ (∀ (users : List User) (ambs : List Ambulance) (incs : List Incident)
          (claim : JwtClaim) (freshId : Nat) (r : IncidentReq) (coords : ℚ × ℚ) (u : User),
        r.coordinates = some coords → r.incident_type ≠ "" → r.priority ≠ .missing →
        users.find? (fun v => v.id == claim.userId) = some u → r.ambulanceId = none →
        (normalizeCoords coords = none →
          createIncident users ambs incs claim freshId r = (.err 400 "Invalid coordinates", incs))
        ∧ (∀ st q, normalizeCoords coords = some st →
            r.priority = .num q → 1 ≤ q → q ≤ 5 → u.phone_number_1 ≠ "" →
            (createIncident users ambs incs claim freshId r).1 = .ok 201
            ∧ ∃ rec, (createIncident users ambs incs claim freshId r).2 = incs ++ [rec]
                ∧ rec.coordinates = st))
    ∧ (∀ (ambs : List Ambulance) (aid : Nat) (r : AmbulanceReq) (coords : ℚ × ℚ),
        r.location = some coords → r.status ∈ validStatuses →
        (normalizeCoords coords = none →
          updateAmbulance ambs aid r = (.err 400 "Invalid coordinates", ambs))
        ∧ (∀ st, normalizeCoords coords = some st →
            (ambs.find? (fun a => a.id == aid)).isSome = true →
            (r.license_plate = ""
              ∨ ambs.find? (fun a => a.id != aid && a.license_plate == r.license_plate) = none) →
            (updateAmbulance ambs aid r).1 = .ok 200
            ∧ ∀ a ∈ (updateAmbulance ambs aid r).2, a.id = aid → a.coordinates = st))
    ∧ normalizeCoords (45, 200) = none
    ∧ normalizeCoords (95, 40) = some (95, 40)
    ∧ createAmbulance [] 1 req45200 = (.err 400 "Invalid coordinates", [])
    ∧ (createAmbulance [] 1 req9540).2 = [amb9540] := by
  refine ⟨normalizeCoords_eq_spec, ?_, ?_, ?_, by decide, by decide, by decide, by decide⟩
  · intro ambs freshId r coords hloc hlp hst hfind
    have hst0 : (r.status == "") = false := by
      simp [validStatuses_ne_empty hst]
    have hlp0 : (r.license_plate == "") = false := by simp [hlp]
    constructor
    · intro hnone
      simp [createAmbulance, hloc, hlp0, hst0, hst, hnone]
    · intro st hsome
      simp [createAmbulance, hloc, hlp0, hst0, hst, hsome, hfind]
  · intro users ambs incs claim freshId r coords u hloc hit hpr hfind hamb
    have hit0 : (r.incident_type == "") = false := by simp [hit]
    have hpr0 : (r.priority == PriorityVal.missing) = false := by simp [hpr]
    constructor
    · intro hnone
      simp [createIncident, hloc, hit0, hpr0, hnone]
    · intro st q hsome hq hq1 hq5 hphone
      simp [createIncident, hloc, hit0, hpr0, hsome, hfind, hamb, hq, saveIncident,
            incidentValid, validIncidentStatuses, hphone, hit, hq1, hq5]
  · intro ambs aid r coords hloc hst
    have hguard : ¬ (r.status != "" ∧ r.status ∉ validStatuses) := by
      rintro ⟨-, h⟩; exact h hst
    constructor
    · intro hnone
      simp only [updateAmbulance, if_neg hguard, hloc, hnone]
    · intro st hsome hfound hnopl
      have hguard2 : ¬ (r.license_plate != ""
          ∧ (ambs.find? (fun a => a.id != aid && a.license_plate == r.license_plate)).isSome
              = true) := by
        rintro ⟨h1, h2⟩
        rcases hnopl with h | h
        · simp [h] at h1
        · rw [h] at h2
          simp at h2
      simp only [updateAmbulance, if_neg hguard, hloc, hsome, hfound, if_pos]
      rw [if_neg hguard2]
      refine ⟨by trivial, ?_⟩
      intro a ha haid
      simp only [List.mem_map] at ha
      obtain ⟨a0, ha0, rfl⟩ := ha
      by_cases h : a0.id = aid
      · simp [h]
      · simp [h] at haid

theorem claim1_coordinate_normalization_witness :
    (createAmbulance [] 1 req9540).1 = .ok 201
    ∧ ∃ rec, (createAmbulance [] 1 req9540).2 = [] ++ [rec] ∧ rec.coordinates = (95, 40) := by
  have h := claim1_coordinate_normalization.2.1 [] 1 req9540 (95, 40)
    (by decide) (by decide) (by decide) (by decide)
  exact h.2 (95, 40) (by decide)

/-- Handler of POST /:incidentId/approve in src/unnamed/part_002 (behind
`verifyToken`): re-fetch the acting user from the store by the userId claim
of the token; 403 unless the stored role is `"dispatcher"`; 404 if the incident
is missing; 400 if its status is already `"dispatched"`; otherwise set the
status to `"dispatched"` and `incident.save()` - the save re-runs the schema
validators of src/config/db.js ("dispatched" is in the status enum, so a
schema-valid incident persists; an invalid document throws and the catch
answers 500).  The role claim of the token is never read. -/
def approveIncident (users : List User) (incs : List Incident) (claim : JwtClaim)
    (iid : Nat) : HResp × List Incident :=
  match users.find? (fun u => u.id == claim.userId) with
  | none => (.err 403 "Only dispatchers can approve incidents", incs)
  | some u =>
    if u.role != "dispatcher" then (.err 403 "Only dispatchers can approve incidents", incs)
    else
      match incs.find? (fun i => i.id == iid) with
      | none => (.err 404 "Incident not found", incs)
      | some inc =>
        if inc.status == "dispatched" then
          (.err 400 "This incident is already dispatched", incs)
        else if incidentValid { inc with status := "dispatched" } then
          (.ok 200, incs.map (fun i => if i.id == iid then { i with status := "dispatched" } else i))
        else
          (.err 500 "Server error", incs)

/-- Handler of POST /:incidentId/revoke in src/unnamed/part_002: same
structure as approve with `"request-denied"` in place of `"dispatched"`.
Because "request-denied" is not in the status enum of the incident schema,
the final `incident.save()` always throws a ValidationError here, so the
handler answers 500 "Server error" and persists nothing. -/
def revokeIncident (users : List User) (incs : List Incident) (claim : JwtClaim)
    (iid : Nat) : HResp × List Incident :=
  match users.find? (fun u => u.id == claim.userId) with
  | none => (.err 403 "Only dispatchers can revoke incidents", incs)
  | some u =>
    if u.role != "dispatcher" then (.err 403 "Only dispatchers can revoke incidents", incs)
    else
      match incs.find? (fun i => i.id == iid) with
      | none => (.err 404 "Incident not found", incs)
      | some inc =>
        if inc.status == "request-denied" then
          (.err 400 "This incident has already been revoked", incs)
        else if incidentValid { inc with status := "request-denied" } then
          (.ok 200, incs.map (fun i => if i.id == iid then { i with status := "request-denied" } else i))
        else
          (.err 500 "Server error", incs)

/-- Handler of PATCH /:id in src/unnamed/part_002 (behind verifyToken
only): findByIdAndUpdate of the status field with no role check and no guard on
the current status; Mongoose update paths do not run schema validators by
default, so any status string is written.  The decoded token claims are
attached to the request but never read by this handler. -/
def patchIncidentStatus (incs : List Incident) (claim : JwtClaim) (iid : Nat)
    (status : String) : HResp × List Incident :=
  match incs.find? (fun i => i.id == iid) with
  | none => (.err 404 "Incident not found", incs)
  | some _ =>
    (.ok 200, incs.map (fun i => if i.id == iid then { i with status := status } else i))

/-- Concrete dispatcher account used by witnesses. -/
def uDispatch : User :=
  ⟨1, "Dora", "dispatcher", "dora@x", bcryptHash "pw", "0700", none⟩

/-- Concrete non-dispatcher account used by witnesses. -/
def uPlain : User :=
  ⟨2, "Bob", "user", "bob@x", bcryptHash "pw2", "0701", some "0702"⟩

/-- Concrete pending incident used by witnesses. -/
def incPending : Incident :=
  ⟨10, 2, "0701", (95, 40), "fire", 1, "pending", none⟩

/-- Concrete already-dispatched incident used by witnesses. -/
def incDispatched : Incident :=
  ⟨11, 2, "0701", (95, 40), "fire", 1, "dispatched", none⟩

/-- Concrete incident already in status "request-denied", reachable only
through the PATCH endpoint (which skips the validators). -/
def incDenied : Incident :=
  ⟨12, 2, "0701", (95, 40), "fire", 1, "request-denied", none⟩

/-- C2: approve behaves as claimed (404 on a missing incident, 400 conflict
when already "dispatched", otherwise the status is set to "dispatched"), and
the guards of revoke do too (404 missing, 400 when already "request-denied");
but the success path of revoke cannot persist: "request-denied" is not in
the status enum of the incident schema in src/config/db.js, so the final
incident.save() throws a ValidationError and the handler answers 500
"Server error" with the store unchanged - evaluated here at the concrete
failing input of a dispatcher revoking a pending incident. -/
theorem claim2_revoke_enum_save_failure :
    validIncidentStatuses.contains "dispatched" = true
    ∧ validIncidentStatuses.contains "request-denied" = false
    ∧ approveIncident [uDispatch] [incPending] ⟨1, "dispatcher"⟩ 10
        = (.ok 200, [{ incPending with status := "dispatched" }])
    ∧ approveIncident [uDispatch] [incDispatched] ⟨1, "dispatcher"⟩ 11
        = (.err 400 "This incident is already dispatched", [incDispatched])
    ∧ approveIncident [uDispatch] [] ⟨1, "dispatcher"⟩ 10
        = (.err 404 "Incident not found", [])
    ∧ revokeIncident [uDispatch] [incDenied] ⟨1, "dispatcher"⟩ 12
        = (.err 400 "This incident has already been revoked", [incDenied])
    ∧ revokeIncident [uDispatch] [] ⟨1, "dispatcher"⟩ 10
        = (.err 404 "Incident not found", [])
    ∧ revokeIncident [uDispatch] [incPending] ⟨1, "dispatcher"⟩ 10
        = (.err 500 "Server error", [incPending]) := by
  decide

/-- C3: for every caller whose stored User.role is not "dispatcher", approve
and revoke return 403 with no state change, and the decision is independent
of the role claim embedded in the bearer token: two tokens with the same
principal id but different role claims produce identical results, because
the handlers re-fetch the role from the store. -/
theorem claim3_role_refetched_from_store
    (users : List User) (incs : List Incident) (uid iid : Nat) :
    (∀ u, users.find? (fun v => v.id == uid) = some u → u.role ≠ "dispatcher" →
      ∀ claimedRole,
        approveIncident users incs ⟨uid, claimedRole⟩ iid
          = (.err 403 "Only dispatchers can approve incidents", incs)
        ∧ revokeIncident users incs ⟨uid, claimedRole⟩ iid
          = (.err 403 "Only dispatchers can revoke incidents", incs))
    ∧ (∀ r1 r2 : String,
        approveIncident users incs ⟨uid, r1⟩ iid = approveIncident users incs ⟨uid, r2⟩ iid
        ∧ revokeIncident users incs ⟨uid, r1⟩ iid = revokeIncident users incs ⟨uid, r2⟩ iid) := by
  constructor
  · intro u hu hrole claimedRole
    constructor <;> simp [approveIncident, revokeIncident, hu, hrole]
  · intro r1 r2
    exact ⟨rfl, rfl⟩

theorem claim3_role_refetched_from_store_witness :
    approveIncident [uPlain] [incPending] ⟨2, "dispatcher"⟩ 10
      = (.err 403 "Only dispatchers can approve incidents", [incPending])
    ∧ approveIncident [uPlain] [incPending] ⟨2, "dispatcher"⟩ 10
      = approveIncident [uPlain] [incPending] ⟨2, "user"⟩ 10 := by
  have h := claim3_role_refetched_from_store [uPlain] [incPending] 2 10
  exact ⟨(h.1 uPlain (by decide) (by decide) "dispatcher").1, (h.2 "dispatcher" "user").1⟩

/-- C6: the status-patch endpoint sets the status to any supplied value with
none of the approve/revoke guards: for every existing incident, every
authenticated caller (whatever the token claims), and every status value,
the PATCH succeeds and overwrites the status regardless of its current
value, including overwriting "dispatched" or "request-denied"; a missing
incident yields 404 with no change. -/
theorem claim6_status_patch_unguarded
    (incs : List Incident) (claim : JwtClaim) (iid : Nat) (st : String) :
    (∀ inc, incs.find? (fun i => i.id == iid) = some inc →
      (patchIncidentStatus incs claim iid st).1 = .ok 200
      ∧ (patchIncidentStatus incs claim iid st).2
          = incs.map (fun i => if i.id == iid then { i with status := st } else i)
      ∧ ∀ i ∈ (patchIncidentStatus incs claim iid st).2, i.id = iid → i.status = st)
    ∧ (∀ c2 : JwtClaim,
        patchIncidentStatus incs claim iid st = patchIncidentStatus incs c2 iid st)
    ∧ (incs.find? (fun i => i.id == iid) = none →
        patchIncidentStatus incs claim iid st = (.err 404 "Incident not found", incs)) := by
  refine ⟨?_, fun c2 => rfl, ?_⟩
  · intro inc hsome
    refine ⟨by simp [patchIncidentStatus, hsome], by simp [patchIncidentStatus, hsome], ?_⟩
    intro i hi hid
    simp only [patchIncidentStatus, hsome, List.mem_map] at hi
    obtain ⟨i0, hi0, rfl⟩ := hi
    by_cases h : i0.id = iid
    · simp [h]
    · simp [h] at hid
  · intro hnone
    simp [patchIncidentStatus, hnone]

theorem claim6_status_patch_unguarded_witness :
    (patchIncidentStatus [incDispatched] ⟨2, "user"⟩ 11 "resolved").1 = .ok 200
    ∧ (patchIncidentStatus [incDispatched] ⟨2, "user"⟩ 11 "resolved").2
        = [{ incDispatched with status := "resolved" }] := by
  have h := (claim6_status_patch_unguarded [incDispatched] ⟨2, "user"⟩ 11 "resolved").1
    incDispatched (by decide)
  refine ⟨h.1, ?_⟩
  rw [h.2.1]; decide

/-- Request body of POST /users/register (src/unnamed/part_000 and
src/unnamed/part_001, identical logic).  Required string fields use the
empty string for a missing value, matching JS falsiness. -/
structure RegisterReq where
  name : String
  role : String
  email : String
  password : String
  phone_number_1 : String
  phone_number_2 : Option String
deriving DecidableEq, Repr

/-- Handler of POST /register in src/unnamed/part_000: required-field check,
then email / primary-phone / (when truthy) secondary-phone duplicate lookups,
each against the same field of existing users only; then hash the password
and save.  The save runs the schema validators, so a role outside the closed
enum raises a validation error that the catch-all turns into a 500. -/
def register (users : List User) (freshId : Nat) (r : RegisterReq) :
    HResp × List User :=
  if r.name == "" || r.role == "" || r.email == "" || r.password == "" || r.phone_number_1 == "" then
    (.err 400 "All required fields must be filled", users)
  else if (users.find? (fun u => u.email == r.email)).isSome then
    (.err 400 "Email already in use", users)
  else if (users.find? (fun u => u.phone_number_1 == r.phone_number_1)).isSome then
    (.err 400 "Primary phone number already in use", users)
  else if otruthy r.phone_number_2
      ∧ (users.find? (fun u => u.phone_number_2 == some (r.phone_number_2.getD ""))).isSome then
    (.err 400 "Secondary phone number already in use", users)
  else if r.role ∉ validRoles then
    (.err 500 "Server error", users)
  else
    (.ok 201, users ++ [{ id := freshId, name := r.name, role := r.role, email := r.email,
                          password := bcryptHash r.password,
                          phone_number_1 := r.phone_number_1,
                          phone_number_2 := r.phone_number_2 }])

/-- Login response: the generic 400 for bad input or failed authentication,
or a 200 carrying the signed token payload. -/
inductive LoginResp where
  | err (code : Nat) (message : String)
  | ok (token : JwtClaim) (userName : String) (userEmail : String)
deriving DecidableEq, Repr

/-- Handler of POST /login in src/unnamed/part_000: look the account up by
email; answer the single generic message when the email is unknown or the
bcrypt comparison fails; on success sign a token embedding the principal id
and its current role. -/
def login (users : List User) (email password : String) : LoginResp :=
  if email == "" || password == "" then
    .err 400 "Email and password are required"
  else
    match users.find? (fun u => u.email == email) with
    | none => .err 400 "Invalid email or password"
    | some u =>
      if bcryptCompare password u.password then
        .ok ⟨u.id, u.role⟩ u.name u.email
      else
        .err 400 "Invalid email or password"

/-- Request body of PUT /update in src/unnamed/part_000; every field is
optional (`none` models `undefined`). -/
structure UpdateReq where
  name : Option String
  email : Option String
  role : Option String
  phone_number_1 : Option String
  phone_number_2 : Option String
deriving DecidableEq, Repr

/-- Field-by-field application of the truthy fields of an update request,
mirroring the sequence of `if (field) user.field = field` statements. -/
def applyUpdate (u : User) (r : UpdateReq) : User :=
  let u1 := if otruthy r.name then { u with name := r.name.getD "" } else u
  let u2 := if otruthy r.email then { u1 with email := r.email.getD "" } else u1
  let u3 := if otruthy r.role then { u2 with role := r.role.getD "" } else u2
  let u4 := if otruthy r.phone_number_1 then
    { u3 with phone_number_1 := r.phone_number_1.getD "" } else u3
  if otruthy r.phone_number_2 then
    { u4 with phone_number_2 := some (r.phone_number_2.getD "") } else u4

/-- Handler of PUT /update in src/unnamed/part_000 (behind `verifyToken`):
require at least one truthy field; find the caller by the token id; re-check
uniqueness for a changed email and a changed primary phone (and for no other
field); apply the truthy fields and save.  The save re-runs the schema
validators, so an updated role outside the enum becomes a 500 with no
change persisted. -/
def updateSelf (users : List User) (callerId : Nat) (r : UpdateReq) :
    HResp × List User :=
  if !(otruthy r.name || otruthy r.email || otruthy r.phone_number_1
       || otruthy r.phone_number_2 || otruthy r.role) then
    (.err 400 "Provide at least one field to update.", users)
  else
    match users.find? (fun u => u.id == callerId) with
    | none => (.err 404 "User not found.", users)
    | some u =>
      if otruthy r.email ∧ r.email.getD "" ≠ u.email
          ∧ (users.find? (fun v => v.email == r.email.getD "")).isSome then
        (.err 400 "Email already in use.", users)
      else if otruthy r.phone_number_1 ∧ r.phone_number_1.getD "" ≠ u.phone_number_1
          ∧ (users.find? (fun v => v.phone_number_1 == r.phone_number_1.getD "")).isSome then
        (.err 400 "Phone number already in use.", users)
      else if (applyUpdate u r).role ∉ validRoles then
        (.err 500 "Server error", users)
      else
        (.ok 200, users.map (fun v => if v.id == callerId then applyUpdate v r else v))

/-- Driver schema from src/unnamed/part_007 (field `user`, unique per user,
unique license number), the schema matching the create calls in
src/routes/driverRoutes.js that populate a `user` field. -/
structure Driver where
  id : Nat
  user : Nat
  license_number : String
  assigned_ambulance : Option Nat
deriving DecidableEq, Repr

/-- Driver schema from src/unnamed/part_006 (field `user_id`, no unique
constraints), the schema matching the third `/create` variant that stores
`user_id`. -/
structure DriverV3 where
  id : Nat
  user_id : Nat
  license_number : String
  assigned_ambulance : Option Nat
deriving DecidableEq, Repr

/-- Handler of the first POST /create in src/routes/driverRoutes.js (lines
43-63, behind `verifyAdmin`): 404 when the user is missing; 400 when a
Driver record for that user already exists; otherwise set the role to
"driver", save the user, then save a new Driver.  The save also enforces
the unique `license_number` index of the part_007 schema: a duplicate key
error surfaces as the catch-all 500 after the role was already rewritten
(the two writes are not atomic). -/
def driverCreate (users : List User) (drivers : List Driver) (freshId : Nat)
    (user_id : Nat) (license_number : String) (assigned_ambulance : Option Nat) :
    HResp × List User × List Driver :=
  match users.find? (fun u => u.id == user_id) with
  | none => (.err 404 "User not found", users, drivers)
  | some _ =>
    if (drivers.find? (fun d => d.user == user_id)).isSome then
      (.err 400 "User is already a driver", users, drivers)
    else
      let users2 := users.map (fun u => if u.id == user_id then { u with role := "driver" } else u)
      if (drivers.find? (fun d => d.license_number == license_number)).isSome then
        (.err 500 "Server error", users2, drivers)
      else
        (.ok 201, users2,
         drivers ++ [{ id := freshId, user := user_id, license_number := license_number,
                       assigned_ambulance := assigned_ambulance }])

/-- Handler of the third POST /create variant in src/routes/driverRoutes.js
(lines 369-412, behind `verifyAdmin`): requires user id and license number;
404 when the user is missing; then sets the role to "driver" and saves the
user BEFORE the optional ambulance existence check; no check that the user
already has a driver record; saves a new DriverV3 (part_006 schema, no
unique indexes). -/
def driverCreateV3 (users : List User) (drivers : List DriverV3) (ambs : List Ambulance)
    (freshId : Nat) (user_id : Nat) (license_number : String)
    (assigned_ambulance : Option Nat) : HResp × List User × List DriverV3 :=
  if license_number == "" then
    (.err 400 "User ID and License Number are required", users, drivers)
  else
    match users.find? (fun u => u.id == user_id) with
    | none => (.err 404 "User not found", users, drivers)
    | some _ =>
      let users2 := users.map (fun u => if u.id == user_id then { u with role := "driver" } else u)
      match assigned_ambulance with
      | some aid =>
        (match ambs.find? (fun a => a.id == aid) with
         | none => (.err 404 "Ambulance not found", users2, drivers)
         | some _ =>
           (.ok 201, users2,
            drivers ++ [{ id := freshId, user_id := user_id, license_number := license_number,
                          assigned_ambulance := some aid }]))
      | none =>
        (.ok 201, users2,
         drivers ++ [{ id := freshId, user_id := user_id, license_number := license_number,
                       assigned_ambulance := none }])

/-- Medic schema from src/models/Medic.js: unique owning user, name and
phone snapshots, specialty, optional ambulance reference. -/
structure Medic where
  id : Nat
  user : Nat
  name : String
  phone : String
  specialty : String
  assigned_ambulance : Option Nat
deriving DecidableEq, Repr

/-- Full store used by the user-deletion claim: the three collections a
cascade (if there were one) could touch. -/
structure Store where
  users : List User
  drivers : List Driver
  medics : List Medic
deriving DecidableEq, Repr

/-- Handler of DELETE /:id in src/unnamed/part_001 (behind `verifyAdmin`):
`findByIdAndDelete` on the User collection alone; 404 when no user has the
id; no read or write of the Driver or Medic collections. -/
def deleteUser (db : Store) (uid : Nat) : HResp × Store :=
  match db.users.find? (fun u => u.id == uid) with
  | none => (.err 404 "User not found", db)
  | some _ => (.ok 200, { db with users := db.users.filter (fun u => u.id != uid) })

/-- C7: authentication with an unknown email and authentication with a known
email but a failing hash comparison return the same generic 400 response,
revealing nothing about which field was wrong; a session token embedding the
principal id and stored role is issued only when the email exists and the
password matches. -/
theorem claim7_login_generic_failure
    (users : List User) (email password : String)
    (he : email ≠ "") (hp : password ≠ "") :
    (users.find? (fun u => u.email == email) = none →
      login users email password = .err 400 "Invalid email or password")
    ∧ (∀ u, users.find? (fun v => v.email == email) = some u →
        bcryptCompare password u.password = false →
        login users email password = .err 400 "Invalid email or password")
    ∧ (∀ tok nm em, login users email password = .ok tok nm em →
        ∃ u, users.find? (fun v => v.email == email) = some u
          ∧ bcryptCompare password u.password = true ∧ tok = ⟨u.id, u.role⟩) := by
  have he0 : (email == "") = false := by simp [he]
  have hp0 : (password == "") = false := by simp [hp]
  refine ⟨?_, ?_, ?_⟩
  · intro hnone
    simp [login, he0, hp0, hnone]
  · intro u hu hcmp
    simp [login, he0, hp0, hu, hcmp]
  · intro tok nm em hok
    cases hfind : users.find? (fun v => v.email == email) with
    | none =>
      rw [show login users email password = .err 400 "Invalid email or password" by
        simp [login, he0, hp0, hfind]] at hok
      exact absurd hok (by simp)
    | some u =>
      by_cases hcmp : bcryptCompare password u.password
      · rw [show login users email password = .ok ⟨u.id, u.role⟩ u.name u.email by
          simp [login, he0, hp0, hfind, hcmp]] at hok
        refine ⟨u, rfl, hcmp, ?_⟩
        injection hok with h1 _
        exact h1.symm
      · rw [show login users email password = .err 400 "Invalid email or password" by
          simp [login, he0, hp0, hfind, hcmp]] at hok
        exact absurd hok (by simp)

theorem claim7_login_generic_failure_witness :
    login [uDispatch] "nobody@x" "pw" = .err 400 "Invalid email or password"
    ∧ login [uDispatch] "dora@x" "wrong" = .err 400 "Invalid email or password"
    ∧ login [uDispatch] "nobody@x" "pw" = login [uDispatch] "dora@x" "wrong" := by
  have h1 := (claim7_login_generic_failure [uDispatch] "nobody@x" "pw"
    (by decide) (by decide)).1 (by decide)
  have h2 := (claim7_login_generic_failure [uDispatch] "dora@x" "wrong"
    (by decide) (by decide)).2.1 uDispatch (by decide) (by decide)
  exact ⟨h1, h2, by rw [h1, h2]⟩

/-- C9: deleting a User by id removes only the User record and does not
cascade: the Driver and Medic collections are unchanged in every case, the
operation succeeds even when a Driver or Medic record references the deleted
user, and a missing user id yields 404 with nothing deleted. -/
theorem claim9_delete_user_no_cascade (db : Store) (uid : Nat) :
    ((deleteUser db uid).2.drivers = db.drivers ∧ (deleteUser db uid).2.medics = db.medics)
    ∧ (∀ u, db.users.find? (fun v => v.id == uid) = some u →
        (deleteUser db uid).1 = .ok 200
        ∧ (deleteUser db uid).2.users = db.users.filter (fun v => v.id != uid))
    ∧ (db.users.find? (fun v => v.id == uid) = none →
        deleteUser db uid = (.err 404 "User not found", db)) := by
  refine ⟨?_, ?_, ?_⟩
  · cases hfind : db.users.find? (fun v => v.id == uid) <;>
      simp [deleteUser, hfind]
  · intro u hu
    simp [deleteUser, hu]
  · intro hnone
    simp [deleteUser, hnone]

theorem claim9_delete_user_no_cascade_witness :
    (deleteUser ⟨[uPlain], [⟨1, 2, "L", none⟩], [⟨1, 2, "Bob", "0701", "er", none⟩]⟩ 2).1
      = .ok 200
    ∧ (deleteUser ⟨[uPlain], [⟨1, 2, "L", none⟩], [⟨1, 2, "Bob", "0701", "er", none⟩]⟩ 2).2.drivers
      = [⟨1, 2, "L", none⟩] := by
  have h := claim9_delete_user_no_cascade
    ⟨[uPlain], [⟨1, 2, "L", none⟩], [⟨1, 2, "Bob", "0701", "er", none⟩]⟩ 2
  exact ⟨(h.2.1 uPlain (by decide)).1, h.1.1⟩

/-- C10: registration places no restriction on the requested role beyond
membership in the closed enum and runs behind no middleware (the handler
takes no credential at all): for every directory state and registration
request with a role from the enum - "admin" included - and fresh
email/phones, the caller obtains a created account bearing that role. -/
theorem claim10_register_any_role_without_credential
    (users : List User) (freshId : Nat) (r : RegisterReq)
    (hname : r.name ≠ "") (hrole : r.role ∈ validRoles) (hemail : r.email ≠ "")
    (hpw : r.password ≠ "") (hp1 : r.phone_number_1 ≠ "")
    (hfe : users.find? (fun u => u.email == r.email) = none)
    (hfp1 : users.find? (fun u => u.phone_number_1 == r.phone_number_1) = none)
    (hfp2 : ¬ (otruthy r.phone_number_2
        ∧ (users.find? (fun u =>
            u.phone_number_2 == some (r.phone_number_2.getD ""))).isSome = true)) :
    (register users freshId r).1 = .ok 201
    ∧ ∃ nu, (register users freshId r).2 = users ++ [nu] ∧ nu.role = r.role := by
  have hrole0 : (r.role == "") = false := by
    have : r.role ≠ "" := by rintro h; rw [h] at hrole; simp [validRoles] at hrole
    simp [this]
  have hname0 : (r.name == "") = false := by simp [hname]
  have hemail0 : (r.email == "") = false := by simp [hemail]
  have hpw0 : (r.password == "") = false := by simp [hpw]
  have hp10 : (r.phone_number_1 == "") = false := by simp [hp1]
  have hreg : register users freshId r
      = (.ok 201, users ++ [{ id := freshId, name := r.name, role := r.role,
                              email := r.email, password := bcryptHash r.password,
                              phone_number_1 := r.phone_number_1,
                              phone_number_2 := r.phone_number_2 }]) := by
    simp [register, hname0, hrole0, hemail0, hpw0, hp10, hfe, hfp1, hrole]
    intro hot x hxmem
    have hnone := Option.not_isSome_iff_eq_none.mp (fun h2 => hfp2 ⟨hot, h2⟩)
    have hx := List.find?_eq_none.mp hnone x hxmem
    simpa using hx
  rw [hreg]
  exact ⟨rfl, _, rfl, rfl⟩

theorem claim10_register_any_role_without_credential_witness :
    (register [] 1 ⟨"Mallory", "admin", "m@x", "pw", "0800", none⟩).1 = .ok 201
    ∧ ∃ nu, (register [] 1 ⟨"Mallory", "admin", "m@x", "pw", "0800", none⟩).2 = [] ++ [nu]
        ∧ nu.role = "admin" := by
  exact claim10_register_any_role_without_credential [] 1
    ⟨"Mallory", "admin", "m@x", "pw", "0800", none⟩
    (by decide) (by decide) (by decide) (by decide) (by decide)
    (by decide) (by decide) (by decide)

/-- Concrete user already promoted to driver by a first V3 promotion. -/
def c4userPromoted : User := ⟨5, "Eve", "driver", "eve@x", bcryptHash "e", "999", none⟩

/-- Concrete driver record created by a first V3 promotion of user 5. -/
def c4firstDriver : DriverV3 := ⟨1, 5, "L1", none⟩

/-- C4 counterexample: under the third POST /create variant
(src/routes/driverRoutes.js lines 369-412) promoting a user who already has
a Driver record succeeds with 201 and creates a second Driver record for the
same user id, contradicting the claim that a second promotion fails and
creates no second record. -/
theorem claim4_counterexample_third_variant_duplicates :
    (driverCreateV3 [c4userPromoted] [c4firstDriver] [] 2 5 "L2" none).1 = .ok 201
    ∧ (driverCreateV3 [c4userPromoted] [c4firstDriver] [] 2 5 "L2" none).2.2
        = [c4firstDriver, ⟨2, 5, "L2", none⟩]
    ∧ c4firstDriver.user_id = 5 ∧ (⟨2, 5, "L2", none⟩ : DriverV3).user_id = 5 := by
  decide

/-- C4 amended: under the first POST /create handler
(src/routes/driverRoutes.js lines 43-63), promoting an existing User sets
its role to "driver" and appends exactly one Driver record referencing the
user id, and promoting the same user again fails with 400 and changes
nothing; the third /create variant performs no duplicate check and creates
a second record instead. -/
theorem claim4_driver_promotion_first_variant
    (users : List User) (drivers : List Driver) (freshId : Nat)
    (uid : Nat) (lic : String) (amb : Option Nat) (u : User)
    (hu : users.find? (fun v => v.id == uid) = some u)
    (hnd : drivers.find? (fun d => d.user == uid) = none)
    (hnl : drivers.find? (fun d => d.license_number == lic) = none) :
    (driverCreate users drivers freshId uid lic amb).1 = .ok 201
    ∧ (driverCreate users drivers freshId uid lic amb).2.2
        = drivers ++ [⟨freshId, uid, lic, amb⟩]
    ∧ (∀ v ∈ (driverCreate users drivers freshId uid lic amb).2.1,
        v.id = uid → v.role = "driver")
    ∧ (∀ fid2 lic2 amb2,
        driverCreate (driverCreate users drivers freshId uid lic amb).2.1
            (driverCreate users drivers freshId uid lic amb).2.2 fid2 uid lic2 amb2
          = (.err 400 "User is already a driver",
             (driverCreate users drivers freshId uid lic amb).2.1,
             (driverCreate users drivers freshId uid lic amb).2.2)) := by
  have hpu : u.id = uid := by simpa using List.find?_some hu
  have hres : driverCreate users drivers freshId uid lic amb
      = (.ok 201,
         users.map (fun v => if v.id == uid then { v with role := "driver" } else v),
         drivers ++ [⟨freshId, uid, lic, amb⟩]) := by
    simp [driverCreate, hu, hnd, hnl]
  rw [hres]
  refine ⟨rfl, rfl, ?_, ?_⟩
  · intro v hv hvid
    simp only [List.mem_map] at hv
    obtain ⟨v0, hv0, rfl⟩ := hv
    by_cases h : v0.id = uid
    · simp [h]
    · exact absurd (by simpa [h] using hvid) h
  · intro fid2 lic2 amb2
    have hu2 : ((users.map (fun v => if v.id == uid then { v with role := "driver" } else v)).find?
        (fun v => v.id == uid)).isSome = true := by
      rw [List.find?_isSome]
      refine ⟨{ u with role := "driver" }, ?_, by simp [hpu]⟩
      exact List.mem_map.mpr ⟨u, List.mem_of_find?_eq_some hu, by simp [hpu]⟩
    obtain ⟨u2, hu2eq⟩ := Option.isSome_iff_exists.mp hu2
    have hd2 : ((drivers ++ [(⟨freshId, uid, lic, amb⟩ : Driver)]).find?
        (fun d => d.user == uid)).isSome = true := by
      rw [List.find?_isSome]
      exact ⟨⟨freshId, uid, lic, amb⟩, List.mem_append_right _ (by simp), by simp⟩
    simp only [driverCreate]
    rw [hu2eq]
    simp [hd2]

theorem claim4_driver_promotion_first_variant_witness :
    (driverCreate [uPlain] [] 1 2 "L9" none).1 = .ok 201
    ∧ (driverCreate [uPlain] [] 1 2 "L9" none).2.2 = [] ++ [⟨1, 2, "L9", none⟩]
    ∧ (∀ v ∈ (driverCreate [uPlain] [] 1 2 "L9" none).2.1, v.id = 2 → v.role = "driver")
    ∧ (∀ fid2 lic2 amb2,
        driverCreate (driverCreate [uPlain] [] 1 2 "L9" none).2.1
            (driverCreate [uPlain] [] 1 2 "L9" none).2.2 fid2 2 lic2 amb2
          = (.err 400 "User is already a driver",
             (driverCreate [uPlain] [] 1 2 "L9" none).2.1,
             (driverCreate [uPlain] [] 1 2 "L9" none).2.2)) := by
  exact claim4_driver_promotion_first_variant [uPlain] [] 1 2 "L9" none uPlain
    (by decide) (by decide) (by decide)

/-- Concrete account holding secondary phone 555, for the C8 counterexample. -/
def c8ann : User := ⟨1, "Ann", "user", "ann@x", bcryptHash "a", "111", some "555"⟩

/-- Concrete account performing the self-update in the C8 counterexample. -/
def c8ben : User := ⟨2, "Ben", "user", "ben@x", bcryptHash "b", "222", some "333"⟩

/-- Update request supplying only a secondary phone already taken by c8ann. -/
def c8req : UpdateReq := ⟨none, none, none, none, some "555"⟩

/-- C8 counterexample: the self-update handler never re-checks the secondary
phone.  Caller Ben supplies secondary phone "555", which differs from his
current value and equals the secondary phone of the other account Ann; the
claim demands a conflict rejection with no change, but the code answers 200
and stores the duplicate. -/
theorem claim8_counterexample_secondary_phone_unchecked :
    c8ann.phone_number_2 = some "555"
    ∧ c8ben.phone_number_2 ≠ some "555"
    ∧ (updateSelf [c8ann, c8ben] 2 c8req).1 = .ok 200
    ∧ (updateSelf [c8ann, c8ben] 2 c8req).2
        = [c8ann, { c8ben with phone_number_2 := some "555" }] := by
  decide

lemma updateSelf_unfold (users : List User) (callerId : Nat) (r : UpdateReq) (u : User)
    (hfield : (otruthy r.name || otruthy r.email || otruthy r.phone_number_1
               || otruthy r.phone_number_2 || otruthy r.role) = true)
    (hu : users.find? (fun v => v.id == callerId) = some u) :
    updateSelf users callerId r =
      if otruthy r.email ∧ r.email.getD "" ≠ u.email
          ∧ (users.find? (fun v => v.email == r.email.getD "")).isSome then
        (.err 400 "Email already in use.", users)
      else if otruthy r.phone_number_1 ∧ r.phone_number_1.getD "" ≠ u.phone_number_1
          ∧ (users.find? (fun v => v.phone_number_1 == r.phone_number_1.getD "")).isSome then
        (.err 400 "Phone number already in use.", users)
      else if (applyUpdate u r).role ∉ validRoles then
        (.err 500 "Server error", users)
      else
        (.ok 200, users.map (fun v => if v.id == callerId then applyUpdate v r else v)) := by
  simp [updateSelf, hfield, hu]

/-- C8 amended: self-update re-checks uniqueness only for a changed email and
a changed primary phone (each against the same field of the other accounts),
rejecting with 400 and no change on a conflict; the secondary phone - and
every other field - is applied without any uniqueness check, so a supplied
secondary phone equal to another account is stored. -/
theorem claim8_update_rechecks_email_and_primary_only
    (users : List User) (callerId : Nat) (r : UpdateReq) (u : User)
    (hfield : (otruthy r.name || otruthy r.email || otruthy r.phone_number_1
               || otruthy r.phone_number_2 || otruthy r.role) = true)
    (hu : users.find? (fun v => v.id == callerId) = some u) :
    (otruthy r.email = true → r.email.getD "" ≠ u.email →
      (users.find? (fun v => v.email == r.email.getD "")).isSome = true →
      updateSelf users callerId r = (.err 400 "Email already in use.", users))
    ∧ (¬(otruthy r.email = true ∧ r.email.getD "" ≠ u.email
          ∧ (users.find? (fun v => v.email == r.email.getD "")).isSome = true) →
        otruthy r.phone_number_1 = true → r.phone_number_1.getD "" ≠ u.phone_number_1 →
        (users.find? (fun v => v.phone_number_1 == r.phone_number_1.getD "")).isSome = true →
        updateSelf users callerId r = (.err 400 "Phone number already in use.", users))
    ∧ (¬(otruthy r.email = true ∧ r.email.getD "" ≠ u.email
          ∧ (users.find? (fun v => v.email == r.email.getD "")).isSome = true) →
        ¬(otruthy r.phone_number_1 = true ∧ r.phone_number_1.getD "" ≠ u.phone_number_1
          ∧ (users.find? (fun v => v.phone_number_1 == r.phone_number_1.getD "")).isSome = true) →
        (applyUpdate u r).role ∈ validRoles →
        updateSelf users callerId r
          = (.ok 200, users.map (fun v => if v.id == callerId then applyUpdate v r else v))) := by
  rw [updateSelf_unfold users callerId r u hfield hu]
  refine ⟨?_, ?_, ?_⟩
  · intro he hne hsome
    rw [if_pos ⟨he, hne, hsome⟩]
  · intro hnc hp hnp hpsome
    rw [if_neg hnc, if_pos ⟨hp, hnp, hpsome⟩]
  · intro hnc hnp hroleok
    rw [if_neg hnc, if_neg hnp, if_neg (not_not_intro hroleok)]

theorem claim8_update_rechecks_email_and_primary_only_witness :
    updateSelf [c8ann, c8ben] 2 ⟨none, some "ann@x", none, none, none⟩
      = (.err 400 "Email already in use.", [c8ann, c8ben]) := by
  exact (claim8_update_rechecks_email_and_primary_only [c8ann, c8ben] 2
    ⟨none, some "ann@x", none, none, none⟩ c8ben (by decide) (by decide)).1
    (by decide) (by decide) (by decide)

/-- Phone values an account occupies, across both phone fields. -/
def phonesOf (u : User) : List String :=
  u.phone_number_1 :: (match u.phone_number_2 with | some p => [p] | none => [])

/-- The invariant as the claim words it: emails unique, and every phone value
unique across all users counting both phone fields. -/
def crossFieldUnique (users : List User) : Prop :=
  (users.map (fun u => u.email)).Nodup ∧ ((users.map phonesOf).flatten).Nodup

instance (users : List User) : Decidable (crossFieldUnique users) := by
  unfold crossFieldUnique; infer_instance

/-- The invariant the code actually maintains: each unique column is checked
only against itself - emails pairwise distinct, primary phones pairwise
distinct, and truthy secondary phones pairwise distinct. -/
def perFieldUnique (users : List User) : Prop :=
  (users.map (fun u => u.email)).Nodup
  ∧ (users.map (fun u => u.phone_number_1)).Nodup
  ∧ ((users.filterMap (fun u => u.phone_number_2)).filter (fun s => s != "")).Nodup

instance (users : List User) : Decidable (perFieldUnique users) := by
  unfold perFieldUnique; infer_instance

lemma perFieldUnique_append (users : List User) (nu : User)
    (hinv : perFieldUnique users)
    (hne : nu.email ∉ users.map (fun u => u.email))
    (hnp : nu.phone_number_1 ∉ users.map (fun u => u.phone_number_1))
    (hnp2 : ∀ p, nu.phone_number_2 = some p → p ≠ "" →
      p ∉ (users.filterMap (fun u => u.phone_number_2)).filter (fun s => s != "")) :
    perFieldUnique (users ++ [nu]) := by
  refine ⟨?_, ?_, ?_⟩
  · rw [List.map_append, List.nodup_append]
    exact ⟨hinv.1, List.nodup_singleton _, by simpa using hne⟩
  · rw [List.map_append, List.nodup_append]
    exact ⟨hinv.2.1, List.nodup_singleton _, by simpa using hnp⟩
  · rw [List.filterMap_append, List.filter_append]
    cases hp2 : nu.phone_number_2 with
    | none => simpa [hp2] using hinv.2.2
    | some p =>
      by_cases hpe : p = ""
      · subst hpe
        simpa [hp2] using hinv.2.2
      · have hone : (List.filterMap (fun u => u.phone_number_2) [nu]).filter
            (fun s => s != "") = [p] := by
          simp [hp2, hpe]
        rw [hone, List.nodup_append]
        exact ⟨hinv.2.2, List.nodup_singleton _, by simpa using hnp2 p hp2 hpe⟩

/-- Existing account of the C5 counterexample, holding secondary phone 222. -/
def c5ann : User := ⟨1, "Ann", "user", "ann@x", bcryptHash "a", "111", some "222"⟩

/-- Registration request of the C5 counterexample: its primary phone equals
the secondary phone of the existing account. -/
def c5req : RegisterReq := ⟨"Ben", "user", "ben@x", "b", "222", none⟩

/-- C5 counterexample: registration checks each unique field only against
the same column, so a new primary phone equal to an existing secondary
phone is accepted - the claim demands a conflict rejection, and the
cross-field phone-uniqueness invariant it states is broken afterwards. -/
theorem claim5_counterexample_cross_field_phone :
    crossFieldUnique [c5ann]
    ∧ (∃ u ∈ [c5ann], u.phone_number_2 = some c5req.phone_number_1)
    ∧ (register [c5ann] 2 c5req).1 = .ok 201
    ∧ ¬ crossFieldUnique (register [c5ann] 2 c5req).2 := by
  decide

/-- C5 amended: registration preserves the per-field uniqueness invariant:
it rejects with a conflict error and no change when the new email matches an
existing email, the new primary phone an existing primary phone, or the
supplied (truthy) secondary phone an existing secondary phone; otherwise it
accepts, appends the account, and the per-field invariant still holds.
Collisions between different phone columns are not checked. -/
theorem claim5_registration_per_field_uniqueness
    (users : List User) (freshId : Nat) (r : RegisterReq)
    (hname : r.name ≠ "") (hrole : r.role ∈ validRoles) (hemail : r.email ≠ "")
    (hpw : r.password ≠ "") (hp1 : r.phone_number_1 ≠ "")
    (hinv : perFieldUnique users) :
    ((∃ u ∈ users, u.email = r.email) →
      register users freshId r = (.err 400 "Email already in use", users))
    ∧ ((∀ u ∈ users, u.email ≠ r.email) →
        (∃ u ∈ users, u.phone_number_1 = r.phone_number_1) →
        register users freshId r = (.err 400 "Primary phone number already in use", users))
    ∧ ((∀ u ∈ users, u.email ≠ r.email) →
        (∀ u ∈ users, u.phone_number_1 ≠ r.phone_number_1) →
        otruthy r.phone_number_2 = true →
        (∃ u ∈ users, u.phone_number_2 = some (r.phone_number_2.getD "")) →
        register users freshId r = (.err 400 "Secondary phone number already in use", users))
    ∧ ((∀ u ∈ users, u.email ≠ r.email) →
        (∀ u ∈ users, u.phone_number_1 ≠ r.phone_number_1) →
        (otruthy r.phone_number_2 = true →
          ∀ u ∈ users, u.phone_number_2 ≠ some (r.phone_number_2.getD "")) →
        (register users freshId r).1 = .ok 201
        ∧ (∃ nu, (register users freshId r).2 = users ++ [nu])
        ∧ perFieldUnique (register users freshId r).2) := by
  have hname0 : (r.name == "") = false := by simp [hname]
  have hemail0 : (r.email == "") = false := by simp [hemail]
  have hpw0 : (r.password == "") = false := by simp [hpw]
  have hp10 : (r.phone_number_1 == "") = false := by simp [hp1]
  have hrole0 : (r.role == "") = false := by
    have : r.role ≠ "" := by rintro h; rw [h] at hrole; simp [validRoles] at hrole
    simp [this]
  refine ⟨?_, ?_, ?_, ?_⟩
  · intro hx
    have hsome : (users.find? (fun u => u.email == r.email)).isSome = true := by
      rw [List.find?_isSome]
      obtain ⟨u, hu, he⟩ := hx
      exact ⟨u, hu, by simp [he]⟩
    simp [register, hname0, hrole0, hemail0, hpw0, hp10, hsome]
  · intro hne hx
    have hnone : users.find? (fun u => u.email == r.email) = none := by
      rw [List.find?_eq_none]
      intro u hu
      simp [hne u hu]
    have hsome : (users.find? (fun u => u.phone_number_1 == r.phone_number_1)).isSome = true := by
      rw [List.find?_isSome]
      obtain ⟨u, hu, hp⟩ := hx
      exact ⟨u, hu, by simp [hp]⟩
    simp [register, hname0, hrole0, hemail0, hpw0, hp10, hnone, hsome]
  · intro hne hnp hot hx
    have hnone : users.find? (fun u => u.email == r.email) = none := by
      rw [List.find?_eq_none]
      intro u hu
      simp [hne u hu]
    have hnone1 : users.find? (fun u => u.phone_number_1 == r.phone_number_1) = none := by
      rw [List.find?_eq_none]
      intro u hu
      simp [hnp u hu]
    have hsome : (users.find? (fun u =>
        u.phone_number_2 == some (r.phone_number_2.getD ""))).isSome = true := by
      rw [List.find?_isSome]
      obtain ⟨u, hu, hp⟩ := hx
      exact ⟨u, hu, by simp [hp]⟩
    simp [register, hname0, hrole0, hemail0, hpw0, hp10, hnone, hnone1, hot, hsome]
  · intro hne hnp hnp2
    have hnone : users.find? (fun u => u.email == r.email) = none := by
      rw [List.find?_eq_none]
      intro u hu
      simp [hne u hu]
    have hnone1 : users.find? (fun u => u.phone_number_1 == r.phone_number_1) = none := by
      rw [List.find?_eq_none]
      intro u hu
      simp [hnp u hu]
    have hguard : ¬ (otruthy r.phone_number_2
        ∧ (users.find? (fun u =>
            u.phone_number_2 == some (r.phone_number_2.getD ""))).isSome = true) := by
      rintro ⟨hot, hsome⟩
      rw [List.find?_isSome] at hsome
      obtain ⟨u, hu, hp⟩ := hsome
      exact hnp2 hot u hu (by simpa using hp)
    have hreg : register users freshId r
        = (.ok 201, users ++ [{ id := freshId, name := r.name, role := r.role,
                                email := r.email, password := bcryptHash r.password,
                                phone_number_1 := r.phone_number_1,
                                phone_number_2 := r.phone_number_2 }]) := by
      simp only [register, hname0, hrole0, hemail0, hpw0, hp10, hnone, hnone1]
      rw [if_neg (by simp [hname0, hrole0, hemail0, hpw0, hp10])]
      rw [if_neg (by simp), if_neg (by simp), if_neg hguard, if_neg (not_not_intro hrole)]
    rw [hreg]
    refine ⟨rfl, ⟨_, rfl⟩, ?_⟩
    apply perFieldUnique_append users _ hinv
    · rw [List.mem_map]
      rintro ⟨u, hu, he⟩
      exact hne u hu he
    · rw [List.mem_map]
      rintro ⟨u, hu, hp⟩
      exact hnp u hu hp
    · intro p hp hpe hmem
      have hot : otruthy r.phone_number_2 = true := by
        have hp2 : r.phone_number_2 = some p := hp
        simp [otruthy, hp2, hpe]
      have hx3 := List.mem_of_mem_filter hmem
      obtain ⟨u, hu, hup⟩ := List.mem_filterMap.mp hx3
      have hcon := hnp2 hot u hu
      have hp2 : r.phone_number_2 = some p := hp
      rw [hp2] at hcon
      simp only [Option.getD_some] at hcon
      exact hcon (by rw [hup])

theorem claim5_registration_per_field_uniqueness_witness :
    register [c5ann] 2 ⟨"Ben", "user", "ann@x", "b", "444", none⟩
      = (.err 400 "Email already in use", [c5ann])
    ∧ (register [c5ann] 2 ⟨"Ben", "user", "ben@x", "b", "444", none⟩).1 = .ok 201 := by
  constructor
  · exact (claim5_registration_per_field_uniqueness [c5ann] 2
      ⟨"Ben", "user", "ann@x", "b", "444", none⟩ (by decide) (by decide) (by decide)
      (by decide) (by decide) (by decide)).1 ⟨c5ann, by decide, by decide⟩
  · exact ((claim5_registration_per_field_uniqueness [c5ann] 2
      ⟨"Ben", "user", "ben@x", "b", "444", none⟩ (by decide) (by decide) (by decide)
      (by decide) (by decide) (by decide)).2.2.2 (by decide) (by decide)
      (by intro h; exact absurd h (by decide))).1

end AmbulanceDispatch
